import Mathlib

/-!
Verification of `rtwo/driver.py` (cloud-provider driver hierarchy).

The Python source is shallowly embedded below: pure functions become Lean
functions, exception-raising code returns `Except`, the mutable
default-argument pattern and the logger become explicit state/output, and
the provider `Connection` object becomes an explicit record of the results
its primitives return (plus, for the deployment family, a call trace so that
"no connection primitive was invoked" is observable).

Code of the repository that is referenced by `driver.py` but is not part of
the given source (the conversion classes in `rtwo.provider` /
`rtwo.machine`-style modules and `APIFilterMixin` in `rtwo.mixins.driver`)
is modelled from the specification; each such definition carries a doc
comment starting with `Modelled from the spec:`.
-/

/-! ## String helpers: Python's substring test `w in s` -/

/-- Boolean test that `w` is a prefix of the second list. -/
def charsPrefix : List Char → List Char → Bool
  | [], _ => true
  | _ :: _, [] => false
  | c :: cs, d :: ds => c == d && charsPrefix cs ds

/-- Boolean test that `w` occurs as a contiguous run inside the second list. -/
def charsInfix (w : List Char) : List Char → Bool
  | [] => w.isEmpty
  | d :: ds => charsPrefix w (d :: ds) || charsInfix w ds

/-- Python's `w in s` on strings: substring containment. -/
def occursIn (w s : String) : Bool := charsInfix w.data s.data

/-! ## C1: the listing layers (LibcloudDriver / EshDriver)

The `Connection` is modelled by the lists its listing primitives return. -/

/-- The provider connection, as seen by the listing operations: the result
each listing primitive would return (`driver.py` lines 147-184). -/
structure LcConnection (α : Type) where
  list_nodes : List α
  list_images : List α
  list_sizes : List α
  list_locations : List α
  list_volumes : List α

/-- `LibcloudDriver.list_instances`: `return self._connection.list_nodes()`. -/
def LibcloudDriver.list_instances {α : Type} (c : LcConnection α) : List α :=
  c.list_nodes

/-- `LibcloudDriver.list_machines`: `return self._connection.list_images()`. -/
def LibcloudDriver.list_machines {α : Type} (c : LcConnection α) : List α :=
  c.list_images

/-- `LibcloudDriver.list_sizes`: `return self._connection.list_sizes()`. -/
def LibcloudDriver.list_sizes {α : Type} (c : LcConnection α) : List α :=
  c.list_sizes

/-- `LibcloudDriver.list_volumes`: `return self._connection.list_volumes(...)`. -/
def LibcloudDriver.list_volumes {α : Type} (c : LcConnection α) : List α :=
  c.list_volumes

/-- Modelled from the spec: `instanceCls.get_instances` (in `rtwo.provider`'s
instance class, not under `src/`) — "converts raw results into domain objects
using the Provider's registered conversion function for that object kind",
applied to each element of the supplied raw list, preserving count and order.
The driver passes it the already-computed list `super().list_instances()`. -/
def get_instances {α β : Type} (instanceCls : α → β) (raw : List α) : List β :=
  raw.map instanceCls

/-- Modelled from the spec: `machineCls.get_machines`. The driver passes the
listing method itself, uncalled (`super(EshDriver, self).list_machines`,
no parentheses, line 212-213), so this conversion entry point receives the
listing method, invokes it, and wraps each element of the result via the
registered conversion function, preserving count and order. -/
def get_machines {α β : Type} (machineCls : α → β) (lister : Unit → List α) : List β :=
  (lister ()).map machineCls

/-- Modelled from the spec: `sizeCls.get_sizes` — same shape as
`get_machines`: receives the listing method uncalled (line 219-220),
invokes it and converts each element. -/
def get_sizes {α β : Type} (sizeCls : α → β) (lister : Unit → List α) : List β :=
  (lister ()).map sizeCls

/-- Modelled from the spec: `volumeCls.get_volumes` — receives the computed
raw volume list (line 257-258) and converts each element. -/
def get_volumes {α β : Type} (volumeCls : α → β) (raw : List α) : List β :=
  raw.map volumeCls

/-- `EshDriver.list_instances` (lines 201-206). -/
def EshDriver.list_instances {α β : Type} (c : LcConnection α) (instanceCls : α → β) : List β :=
  get_instances instanceCls (LibcloudDriver.list_instances c)

/-- `EshDriver.list_machines` (lines 208-213): note the bound method is
passed uncalled. -/
def EshDriver.list_machines {α β : Type} (c : LcConnection α) (machineCls : α → β) : List β :=
  get_machines machineCls (fun _ => LibcloudDriver.list_machines c)

/-- `EshDriver.list_sizes` (lines 215-220): the bound method is passed
uncalled. -/
def EshDriver.list_sizes {α β : Type} (c : LcConnection α) (sizeCls : α → β) : List β :=
  get_sizes sizeCls (fun _ => LibcloudDriver.list_sizes c)

/-- `EshDriver.list_volumes` (lines 256-258). -/
def EshDriver.list_volumes {α β : Type} (c : LcConnection α) (volumeCls : α → β) : List β :=
  get_volumes volumeCls (LibcloudDriver.list_volumes c)

/-! ## C4: `OSDriver._is_active_instance` (lines 460-472) -/

/-- The fields of `instance.extra` read by `_is_active_instance`. -/
structure OSInstanceExtra where
  status : String
  task : String
  power : String

/-- `OSDriver._is_active_instance`: direct transcription of lines 460-472.
Python control flow: inside `status == 'active'`, a task in the excluded list
falls through past the `elif` to `return False`. -/
def OSDriver._is_active_instance (e : OSInstanceExtra) : Bool :=
  let status := e.status
  let task := e.task
  if status == "active" then
    if task ∈ (["deleting", "suspending"] : List String) then false else true
  else if (status == "build" || status == "resize") && task != "deleting" then
    true
  else
    false

example : OSDriver._is_active_instance ⟨"active", "running", "on"⟩ = true := by decide

example : OSDriver._is_active_instance ⟨"active", "deleting", "on"⟩ = false := by decide

example : OSDriver._is_active_instance ⟨"build", "spawning", "on"⟩ = true := by decide

example : OSDriver._is_active_instance ⟨"suspended", "running", "on"⟩ = false := by decide

/-! ## C8: driver construction (lines 139-145, 195-199, 300-305) -/

/-- Concrete Provider classes (`OSProvider` / `AWSProvider` / `EucaProvider`),
as the variant tag that `isinstance` inspects. -/
inductive PVariant where
  | os
  | aws
  | euca
deriving DecidableEq

/-- Concrete Identity classes (`OSIdentity` / `AWSIdentity` / `EucaIdentity`). -/
inductive IVariant where
  | os
  | aws
  | euca
deriving DecidableEq

/-- The polymorphic `identity.user` value: either a plain string or a
user object carrying a `username` field (Django User). -/
inductive UserRepr where
  | plainString (s : String)
  | userObject (username : String)
deriving DecidableEq

/-- A Provider argument object: its class tag. -/
structure ProviderObj where
  variant : PVariant
deriving DecidableEq

/-- An Identity argument object: its class tag and its `user` attribute. -/
structure IdentityObj where
  variant : IVariant
  user : UserRepr
deriving DecidableEq

/-- Errors raised during driver construction. -/
inductive ConstructErr where
  | missingArgs (msg : String)
  | serviceExc (msg : String)
deriving DecidableEq

/-- The constructed driver state: the stored provider/identity and the two
region fields that `OSDriver.__init__` force-sets. -/
structure Driver where
  provider : ProviderObj
  identity : IdentityObj
  exForceServiceRegion : Option String
  serviceRegion : Option String
deriving DecidableEq

/-- `LibcloudDriver.__init__` (lines 139-145): `None` provider or identity
raises `MissingArgsException`; otherwise the fields are stored and the
connection is opened. -/
def LibcloudDriver.init (provider : Option ProviderObj) (identity : Option IdentityObj) :
    Except ConstructErr Driver :=
  match provider, identity with
  | none, _ =>
      .error (.missingArgs "LibcloudDriver is Missing Required Identity and/or Provider.")
  | _, none =>
      .error (.missingArgs "LibcloudDriver is Missing Required Identity and/or Provider.")
  | some p, some i => .ok { provider := p, identity := i, exForceServiceRegion := none, serviceRegion := none }

/-- `EshDriver.__init__` (lines 195-199): runs the base constructor first,
then checks `isinstance(provider, self.providerCls) and
isinstance(identity, self.identityCls)`, raising `ServiceException` on a
mismatch. -/
def EshDriver.init (providerCls : PVariant) (identityCls : IVariant)
    (provider : Option ProviderObj) (identity : Option IdentityObj) :
    Except ConstructErr Driver := do
  let d ← LibcloudDriver.init provider identity
  if d.provider.variant = providerCls ∧ d.identity.variant = identityCls then
    .ok d
  else
    .error (.serviceExc "Wrong Provider or Identity")

/-- The non-connection configuration `driver.py` reads from `rtwo.settings`. -/
structure SettingsModel where
  serverUrl : String
  instanceServiceUrl : String
  vncLicense : String
  defaultRegion : String
deriving DecidableEq

/-- `OSDriver.__init__` (lines 300-305): the `EshDriver` constructor bound to
the OpenStack classes, followed by the dual region-pinning assignment. -/
def OSDriver.init (st : SettingsModel) (provider : Option ProviderObj)
    (identity : Option IdentityObj) : Except ConstructErr Driver := do
  let d ← EshDriver.init PVariant.os IVariant.os provider identity
  .ok { d with
        exForceServiceRegion := some st.defaultRegion,
        serviceRegion := some st.defaultRegion }

/-- The concrete driver subtypes under test. -/
inductive DriverSubtype where
  | os
  | aws
  | euca
deriving DecidableEq

/-- Each subtype's bound provider class (`providerCls`, lines 276, 478, 571). -/
def boundProviderCls : DriverSubtype → PVariant
  | .os => .os
  | .aws => .aws
  | .euca => .euca

/-- Each subtype's bound identity class (`identityCls`, lines 278, 480, 573). -/
def boundIdentityCls : DriverSubtype → IVariant
  | .os => .os
  | .aws => .aws
  | .euca => .euca

/-- Constructing a specialized driver: `OSDriver` has its own `__init__`;
`AWSDriver` and `EucaDriver` inherit `EshDriver.__init__` with their bound
classes. -/
def driverInit (st : SettingsModel) : DriverSubtype → Option ProviderObj →
    Option IdentityObj → Except ConstructErr Driver
  | .os => OSDriver.init st
  | .aws => EshDriver.init PVariant.aws IVariant.aws
  | .euca => EshDriver.init PVariant.euca IVariant.euca

/-! ## C3 / C9: `AWSDriver.filter_machines` (lines 534-560) -/

/-- A machine as consumed by the AWS filter: its `alias`, display `name`,
and the `_image.extra` ownership metadata. -/
structure AWSMachine where
  mAlias : String
  mName : String
  ownerid : String
  owneralias : String
deriving DecidableEq

/-- The fixed terms that `filter_machines` appends to the block-list
(line 541). -/
def awsFixedBlackList : List String := ["bitnami", "kernel", "microsoft", "Windows"]

/-- Modelled from the spec: `APIFilterMixin.filter_machines`
(`rtwo.mixins.driver`, not under `src/`) — "exclude machines whose metadata
matches an extended block-list": a machine is kept exactly when no
block-list word occurs in its metadata (name, alias, owner id, owner
alias). -/
def APIFilterMixin.filter_machines (machines : List AWSMachine) (bl : List String) :
    List AWSMachine :=
  machines.filter fun m =>
    !(bl.any fun w =>
        occursIn w m.mName || occursIn w m.mAlias ||
        occursIn w m.ownerid || occursIn w m.owneralias)

/-- Stages 1-3 of `AWSDriver.filter_machines` (lines 539-560), applied to the
already-extended block-list: the generic metadata filter, the
`aki-`/`ari-` alias filter (the bound variable is reassigned, so the later
stages do see the alias-filtered subset), then the owner-id and
owner-alias splits concatenated in that order. -/
def AWSDriver.filter_machines_stages (machines : List AWSMachine)
    (blExtended : List String) : List AWSMachine :=
  let filtered1 := APIFilterMixin.filter_machines machines blExtended
  let filtered2 := filtered1.filter fun m =>
    (["aki-", "ari-"] : List String).any fun w => occursIn w m.mAlias
  let filtered_ubuntu := filtered2.filter fun m =>
    (["099720109477"] : List String).any fun w => w == m.ownerid
  let filtered_amazon := filtered2.filter fun m =>
    (["amazon", "aws-marketplace"] : List String).any fun w => w == m.owneralias
  filtered_ubuntu ++ filtered_amazon

/-- `AWSDriver.filter_machines` as a function of the machine list and the
block-list object it starts from (after `black_list.extend([...])` the
effective list is the starting list followed by the fixed terms). -/
def AWSDriver.filter_machines (machines : List AWSMachine) (black_list : List String) :
    List AWSMachine :=
  AWSDriver.filter_machines_stages machines (black_list ++ awsFixedBlackList)

/-- Observable outcome of one Python-level call to
`AWSDriver.filter_machines`, with CPython's shared default-argument cell and
the in-place `extend` made explicit. -/
structure FilterMachinesCall where
  result : List AWSMachine
  defaultCellAfter : List String
  effectiveBlackList : List String
  suppliedAfter : Option (List String)
deriving DecidableEq

/-- One call to `AWSDriver.filter_machines` under CPython semantics:
`black_list=[]` is a single list object created at function definition time
(the `defaultCell`); when the caller omits the argument, the parameter is
bound to that shared object and `black_list.extend(...)` mutates it in
place; when the caller supplies a list, that list object is mutated in
place instead. -/
def AWSDriver.filter_machines_call (defaultCell : List String)
    (machines : List AWSMachine) (supplied : Option (List String)) :
    FilterMachinesCall :=
  let start := match supplied with
    | none => defaultCell
    | some l => l
  let extended := start ++ awsFixedBlackList
  { result := AWSDriver.filter_machines_stages machines extended
    defaultCellAfter := match supplied with
      | none => extended
      | some _ => defaultCell
    effectiveBlackList := extended
    suppliedAfter := match supplied with
      | none => none
      | some _ => some extended }

/-! ## OpenStack deployment family (lines 307-425): C2, C5, C6, C7, C10 -/

/-- Exceptions that flow through the deployment family. -/
inductive Exc where
  | missingArgs (msg : String)
  | deploymentError (v : String)
  | attributeError
deriving DecidableEq

/-- An OpenStack instance as consumed here: its `id` and its raw `_node`. -/
structure OSInstance where
  id : String
  node : String
deriving DecidableEq

/-- A Python positional argument of the deploy family. -/
inductive PyVal where
  | pyInstance (i : OSInstance)
  | pyStr (s : String)
deriving DecidableEq

/-- Attribute access `x._node`: only instances have it. -/
def PyVal.nodeAttr : PyVal → Except Exc String
  | .pyInstance i => .ok i.node
  | _ => .error .attributeError

/-- Attribute access `x.id`: only instances have it. -/
def PyVal.idAttr : PyVal → Except Exc String
  | .pyInstance i => .ok i.id
  | _ => .error .attributeError

/-- Attribute access `user.username`: a plain string has no `username`
attribute, so it raises `AttributeError`. -/
def UserRepr.usernameAttr : UserRepr → Except Exc String
  | .plainString _ => .error .attributeError
  | .userObject u => .ok u

/-- The `username` resolution at the top of `deploy_init_to`
(lines 317-321): `isinstance(user, basestring)` keeps the string itself,
otherwise the object's `username` field is read. -/
def resolveUsername : UserRepr → String
  | .plainString s => s
  | .userObject u => u

/-- One `ScriptDeployment` / `LoggedScriptDeployment` step. -/
structure ScriptStep where
  script : String
  name : String
  logfile : Option String
deriving DecidableEq

/-- A `MultiStepDeployment`: the ordered step list. -/
structure DeployPlan where
  steps : List ScriptStep
deriving DecidableEq

/-- The keyword arguments manipulated by the deploy family
(`deploy`, `ssh_key`, `timeout`, `token`). -/
structure Kwargs where
  deploy : Option DeployPlan
  ssh_key : Option String
  timeout : Option Nat
  token : Option String
deriving DecidableEq

/-- The all-absent keyword-argument dictionary. -/
def Kwargs.empty : Kwargs :=
  { deploy := none, ssh_key := none, timeout := none, token := none }

/-- Python truthiness of `kwargs.get('deploy')`: a `MultiStepDeployment`
object is always truthy. -/
def Kwargs.deployTruthy (k : Kwargs) : Bool := k.deploy.isSome

/-- Python truthiness of `kwargs.get('ssh_key')`: absent or empty is falsy. -/
def Kwargs.sshKeyTruthy (k : Kwargs) : Bool :=
  match k.ssh_key with
  | none => false
  | some s => !(s == "")

/-- Python truthiness of `kwargs.get('timeout')`: absent or zero is falsy. -/
def Kwargs.timeoutTruthy (k : Kwargs) : Bool :=
  match k.timeout with
  | none => false
  | some n => !(n == 0)

/-- A call made on the Connection by the deploy family:
`ex_deploy_to_node(instance._node, *args, **kwargs)` or the blocking
create+deploy `deploy_node(*args, **kwargs)`. -/
inductive ConnCall where
  | exDeployToNode (node : String) (args : List PyVal) (kwargs : Kwargs)
  | deployNode (args : List PyVal) (kwargs : Kwargs)
deriving DecidableEq

/-- A logger record. -/
inductive LogEntry where
  | info (s : String)
  | error (s : String)
deriving DecidableEq

/-- The observable outcome of one deploy-family call: the returned value or
raised exception, the Connection primitives invoked, and the log records
emitted. -/
structure DeployResult where
  result : Except Exc Bool
  calls : List ConnCall
  log : List LogEntry

/-- The hard-coded private key path (lines 374, 392, 413). -/
def defaultSshKey : String := "/opt/dev/atmosphere/extras/ssh/id_rsa"

/-- The conditional defaulting of `ssh_key` and `timeout` in
`OSDriver.deploy_to` (lines 391-395): each is filled only when falsy. -/
def OSDriver.deploy_to_kwargs (kwargs : Kwargs) : Kwargs :=
  let k1 := if !kwargs.sshKeyTruthy then { kwargs with ssh_key := some defaultSshKey } else kwargs
  if !k1.timeoutTruthy then { k1 with timeout := some 120 } else k1

/-- `OSDriver.deploy_to` (lines 381-401): check the instance argument, check
`deploy`, fill `ssh_key`/`timeout` only when falsy, read
`identity.user.username` (unconditionally), log, and invoke
`ex_deploy_to_node(instance._node, *args, **kwargs)`; returns `True`. -/
def OSDriver.deploy_to (ident : IdentityObj) (conn : ConnCall → Except Exc Unit)
    (args : List PyVal) (kwargs : Kwargs) : DeployResult :=
  match args with
  | [] => { result := .error (.missingArgs "Missing instance argument."), calls := [], log := [] }
  | a0 :: _ =>
    if !kwargs.deployTruthy then
      { result := .error (.missingArgs "Missing deploy argument."), calls := [], log := [] }
    else
      let k2 := OSDriver.deploy_to_kwargs kwargs
      match ident.user.usernameAttr with
      | .error e => { result := .error e, calls := [], log := [] }
      | .ok _ =>
        match a0.nodeAttr with
        | .error e =>
          { result := .error e, calls := [],
            log := [LogEntry.info "Attempting deployment to node"] }
        | .ok node =>
          let call := ConnCall.exDeployToNode node args k2
          match conn call with
          | .error e =>
            { result := .error e, calls := [call],
              log := [LogEntry.info "Attempting deployment to node"] }
          | .ok _ =>
            { result := .ok true, calls := [call],
              log := [LogEntry.info "Attempting deployment to node"] }

/-- The unconditional `kwargs.update` pair in `OSDriver.deploy_instance`
(lines 413-415). -/
def OSDriver.deploy_instance_kwargs (kwargs : Kwargs) : Kwargs :=
  { kwargs with ssh_key := some defaultSshKey, timeout := some 120 }

/-- `OSDriver.deploy_instance` (lines 403-425): check `deploy`, read
`identity.user.username`, overwrite `ssh_key`/`timeout`, call the blocking
create+deploy primitive; `DeploymentError` is caught, logged and turned
into `False`; success returns `True`. (`self.deploy_node` itself lives
outside `src/`; modelled from the spec as the Connection's blocking
create+deploy primitive.) -/
def OSDriver.deploy_instance (ident : IdentityObj) (conn : ConnCall → Except Exc Unit)
    (args : List PyVal) (kwargs : Kwargs) : DeployResult :=
  if !kwargs.deployTruthy then
    { result := .error (.missingArgs "Missing deploy argument."), calls := [], log := [] }
  else
    match ident.user.usernameAttr with
    | .error e => { result := .error e, calls := [], log := [] }
    | .ok _ =>
      let k := OSDriver.deploy_instance_kwargs kwargs
      let call := ConnCall.deployNode args k
      match conn call with
      | .error (.deploymentError v) =>
        { result := .ok false, calls := [call],
          log := [LogEntry.error "sys.exc_info", LogEntry.error v] }
      | .error e => { result := .error e, calls := [call], log := [] }
      | .ok _ => { result := .ok true, calls := [call], log := [] }

/-- Path constants of `deploy_init_to` (lines 322-323). -/
def atmoInitPath : String := "/usr/sbin/atmo_init_full.py"

/-- Server-side path of the init script (line 323). -/
def serverAtmoInit : String := "/init_files/30/atmo-init-full.py"

/-- The common log file of steps 2-5 (lines 336, 341, 345, 366). -/
def atmoLogfile : String := "/var/log/atmo/deploy.log"

/-- The `awesome_atmo_call` command line (lines 349-359). -/
def OSDriver.awesomeAtmoCall (st : SettingsModel) (username tok : String) : String :=
  atmoInitPath ++ " --service_type=instance_service_v1 --service_url=" ++
  st.instanceServiceUrl ++ " --server=" ++ st.serverUrl ++ " --user_id=" ++
  username ++ " --token=" ++ tok ++ " --vnc_license=" ++ st.vncLicense

/-- The five-step `MultiStepDeployment` built by `deploy_init_to`
(lines 324-371). -/
def OSDriver.buildDeployPlan (st : SettingsModel) (username tok : String) : DeployPlan :=
  { steps :=
    [ { script := "if [ ! -d \"/var/log/atmo\" ];then\nmkdir -p /var/log/atmo\nfi\nif [ ! -f \"/var/log/atmo/deploy.log\" ]; then\ntouch /var/log/atmo/deploy.log\nfi"
        name := "deploy_init_log.sh"
        logfile := none }
    , { script := "apt-get update;apt-get install -y emacs vim wget language-pack-en make gcc g++ gettext texinfo autoconf automake"
        name := "deploy_aptget_update.sh"
        logfile := some atmoLogfile }
    , { script := "wget -O " ++ atmoInitPath ++ " " ++ st.serverUrl ++ serverAtmoInit
        name := "deploy_wget_atmoinit.sh"
        logfile := some atmoLogfile }
    , { script := "chmod a+x " ++ atmoInitPath
        name := "deploy_chmod_atmoinit.sh"
        logfile := some atmoLogfile }
    , { script := OSDriver.awesomeAtmoCall st username tok
        name := "deploy_call_atmoinit.sh"
        logfile := some atmoLogfile } ] }

/-- The `instance_token` resolution (lines 346-348): `kwargs.get('token','')`
and, when that is falsy, `instance.id`. -/
def OSDriver.resolveInstanceToken (kwargs : Kwargs) (a0 : PyVal) : Except Exc String :=
  let tok0 := match kwargs.token with
    | none => ""
    | some t => t
  if tok0 == "" then a0.idAttr else .ok tok0

/-- The value `resolveInstanceToken` yields when the head argument really is
an instance. -/
def OSDriver.instanceTokenOf (kwargs : Kwargs) (i : OSInstance) : String :=
  match kwargs.token with
  | none => i.id
  | some t => if t == "" then i.id else t

/-- The keyword arguments after `deploy_init_to`'s three unconditional
`kwargs.update` calls (lines 372-377), for an instance-headed call: `deploy`
is the five-step plan, `ssh_key` the hard-coded key, `timeout` 120. -/
def OSDriver.deploy_init_kwargs (st : SettingsModel) (ident : IdentityObj)
    (kwargs : Kwargs) (i : OSInstance) : Kwargs :=
  { kwargs with
    deploy := some (OSDriver.buildDeployPlan st (resolveUsername ident.user)
        (OSDriver.instanceTokenOf kwargs i))
    ssh_key := some defaultSshKey
    timeout := some 120 }

/-- Everything `deploy_init_to` computes before delegating (lines 313-379):
the argument check, the username and token resolution, the plan, and the
unconditional `kwargs.update` of `deploy`, `ssh_key` and `timeout`; the
returned pair is exactly the `(args, kwargs)` handed to
`self.deploy_to(instance, *args, **kwargs)` — note the duplicated head. -/
def OSDriver.deploy_init_prepare (st : SettingsModel) (ident : IdentityObj)
    (args : List PyVal) (kwargs : Kwargs) : Except Exc (List PyVal × Kwargs) :=
  match args with
  | [] => .error (.missingArgs "Missing instance argument.")
  | a0 :: rest => do
    let username := resolveUsername ident.user
    let tok ← OSDriver.resolveInstanceToken kwargs a0
    let msd := OSDriver.buildDeployPlan st username tok
    .ok (a0 :: a0 :: rest,
      { kwargs with deploy := some msd, ssh_key := some defaultSshKey, timeout := some 120 })

/-- `OSDriver.deploy_init_to` (lines 307-379): the preparation above followed
by the delegation to `deploy_to`. -/
def OSDriver.deploy_init_to (st : SettingsModel) (ident : IdentityObj)
    (conn : ConnCall → Except Exc Unit) (args : List PyVal) (kwargs : Kwargs) :
    DeployResult :=
  match OSDriver.deploy_init_prepare st ident args kwargs with
  | .error e => { result := .error e, calls := [], log := [] }
  | .ok (args2, kwargs2) => OSDriver.deploy_to ident conn args2 kwargs2

/-- The keyword arguments carried by a recorded Connection call. -/
def ConnCall.kwargsOf : ConnCall → Kwargs
  | .exDeployToNode _ _ k => k
  | .deployNode _ k => k

/-- The positional arguments carried by a recorded Connection call. -/
def ConnCall.argsOf : ConnCall → List PyVal
  | .exDeployToNode _ a _ => a
  | .deployNode a _ => a

/-! ### Concrete fixtures used by witnesses and counterexamples -/

/-- A concrete settings record. -/
def st0 : SettingsModel :=
  { serverUrl := "https://server.example"
    instanceServiceUrl := "https://instances.example"
    vncLicense := "LIC-42"
    defaultRegion := "iplant" }

/-- A concrete instance. -/
def inst0 : OSInstance := { id := "inst-1", node := "node-1" }

/-- A Connection whose primitives all succeed. -/
def connOk : ConnCall → Except Exc Unit := fun _ => .ok ()

/-- An identity whose `user` is a Django-style object with `username`. -/
def identAliceObj : IdentityObj := { variant := .os, user := .userObject "alice" }

/-- An identity whose `user` is a plain string. -/
def identAliceStr : IdentityObj := { variant := .os, user := .plainString "alice" }

example : (OSDriver.deploy_init_to st0 identAliceObj connOk
    [PyVal.pyInstance inst0] Kwargs.empty).result = .ok true := rfl

example : (OSDriver.deploy_init_to st0 identAliceStr connOk
    [PyVal.pyInstance inst0] Kwargs.empty).result = .error .attributeError := rfl

example : (OSDriver.deploy_init_to st0 identAliceStr connOk
    [PyVal.pyInstance inst0] Kwargs.empty).calls = [] := rfl

example : (OSDriver.deploy_instance identAliceObj connOk []
    { Kwargs.empty with deploy := some (OSDriver.buildDeployPlan st0 "u" "t") }).result
    = .ok true := rfl

example : ((OSDriver.deploy_init_to st0 identAliceObj connOk [PyVal.pyInstance inst0]
    { Kwargs.empty with timeout := some 999, ssh_key := some "/home/caller/key" }).calls.map
      (fun c => c.kwargsOf.timeout)) = [some 120] := rfl

example : ((OSDriver.deploy_init_to st0 identAliceObj connOk [PyVal.pyInstance inst0]
    Kwargs.empty).calls.map ConnCall.argsOf)
    = [[PyVal.pyInstance inst0, PyVal.pyInstance inst0]] := rfl

/-- For an instance-headed call the token resolution cannot fail and yields
`instanceTokenOf`. -/
theorem OSDriver.resolveInstanceToken_instance (kwargs : Kwargs) (i : OSInstance) :
    OSDriver.resolveInstanceToken kwargs (PyVal.pyInstance i)
      = .ok (OSDriver.instanceTokenOf kwargs i) := by
  unfold OSDriver.resolveInstanceToken OSDriver.instanceTokenOf
  cases h : kwargs.token with
  | none => simp [PyVal.idAttr]
  | some t =>
    cases ht : t == "" with
    | true => simp [ht, PyVal.idAttr]
    | false => simp [ht]

/-- For an instance-headed call the preparation step of `deploy_init_to`
always succeeds, duplicates the head argument and overwrites the three
keyword arguments. -/
theorem OSDriver.deploy_init_prepare_instance (st : SettingsModel) (ident : IdentityObj)
    (i : OSInstance) (rest : List PyVal) (kwargs : Kwargs) :
    OSDriver.deploy_init_prepare st ident (PyVal.pyInstance i :: rest) kwargs
      = .ok (PyVal.pyInstance i :: PyVal.pyInstance i :: rest,
             OSDriver.deploy_init_kwargs st ident kwargs i) := by
  simp only [OSDriver.deploy_init_prepare, OSDriver.deploy_init_kwargs]
  rw [OSDriver.resolveInstanceToken_instance]
  rfl

/-! ## Claim theorems -/

/-- C1: for every connection result, the Generic Driver's `list_instances`
and `list_volumes` return exactly the Connection's `list_nodes`/`list_volumes`
result, unconverted; and each read operation of the Capability-Converting
Driver (`list_instances`/`list_machines`/`list_sizes`/`list_volumes`)
returns the same list with every element wrapped by the registered
conversion function for that kind, preserving element count and order. -/
theorem C1_listing_roundtrip_and_conversion {α β : Type} (c : LcConnection α)
    (instanceCls machineCls sizeCls volumeCls : α → β) :
    LibcloudDriver.list_instances c = c.list_nodes
    ∧ LibcloudDriver.list_volumes c = c.list_volumes
    ∧ EshDriver.list_instances c instanceCls = c.list_nodes.map instanceCls
    ∧ EshDriver.list_machines c machineCls = c.list_images.map machineCls
    ∧ EshDriver.list_sizes c sizeCls = c.list_sizes.map sizeCls
    ∧ EshDriver.list_volumes c volumeCls = c.list_volumes.map volumeCls
    ∧ (EshDriver.list_instances c instanceCls).length
        = (LibcloudDriver.list_instances c).length
    ∧ (EshDriver.list_machines c machineCls).length
        = (LibcloudDriver.list_machines c).length
    ∧ (∀ n : Nat, (EshDriver.list_instances c instanceCls)[n]?
        = ((LibcloudDriver.list_instances c)[n]?).map instanceCls)
    ∧ (∀ n : Nat, (EshDriver.list_machines c machineCls)[n]?
        = ((LibcloudDriver.list_machines c)[n]?).map machineCls) := by
  refine ⟨rfl, rfl, rfl, rfl, rfl, rfl, ?_, ?_, ?_, ?_⟩ <;>
    simp [EshDriver.list_instances, EshDriver.list_machines, get_instances, get_machines,
      LibcloudDriver.list_instances, LibcloudDriver.list_machines, List.getElem?_map]

/-- C4: `_is_active_instance` is true exactly when either the status is
"active" and the task is neither "deleting" nor "suspending", or the status
is "build" or "resize" and the task is not "deleting"; in particular a
"suspended" status is false for every task. -/
theorem C4_is_active_instance_characterization (status task power : String) :
    (OSDriver._is_active_instance ⟨status, task, power⟩ = true ↔
      (status = "active" ∧ task ≠ "deleting" ∧ task ≠ "suspending")
      ∨ ((status = "build" ∨ status = "resize") ∧ task ≠ "deleting"))
    ∧ OSDriver._is_active_instance ⟨"suspended", task, power⟩ = false := by
  constructor
  · by_cases h1 : status = "active" <;> by_cases h2 : task = "deleting" <;>
      by_cases h3 : task = "suspending" <;> by_cases h4 : status = "build" <;>
      by_cases h5 : status = "resize" <;>
      simp_all [OSDriver._is_active_instance]
  · by_cases h2 : task = "deleting" <;> simp_all [OSDriver._is_active_instance]

/-- Machine A of the spec's filter test: alias "aki-1", owned by Ubuntu's
owner id. -/
def machineA : AWSMachine :=
  { mAlias := "aki-1", mName := "imageA", ownerid := "099720109477", owneralias := "canonical" }

/-- Machine B: alias "ari-2", owner alias "amazon". -/
def machineB : AWSMachine :=
  { mAlias := "ari-2", mName := "imageB", ownerid := "137112412989", owneralias := "amazon" }

/-- Machine C: alias "m1" (neither "aki-" nor "ari-"), owner 999. -/
def machineC : AWSMachine :=
  { mAlias := "m1", mName := "imageC", ownerid := "999", owneralias := "" }

/-- Machine D: alias "aki-x" but blocked by the "bitnami" block-list term. -/
def machineD : AWSMachine :=
  { mAlias := "aki-x", mName := "imageD", ownerid := "555", owneralias := "bitnami" }

/-- C3: on the spec's four-machine list the AWS filter returns exactly
[A, B] in that order, and in general the returned list is the owner-id
matches followed by the owner-alias matches. -/
theorem C3_filter_machines_order :
    AWSDriver.filter_machines [machineA, machineB, machineC, machineD] []
      = [machineA, machineB]
    ∧ ∀ (machines : List AWSMachine) (bl : List String),
        ∃ u a, AWSDriver.filter_machines machines bl = u ++ a
          ∧ (∀ m ∈ u, m.ownerid = "099720109477")
          ∧ (∀ m ∈ a, m.owneralias = "amazon" ∨ m.owneralias = "aws-marketplace") := by
  constructor
  · rfl
  · intro machines bl
    refine ⟨_, _, rfl, ?_, ?_⟩
    · intro m hm
      have h := (List.mem_filter.mp hm).2
      simp only [List.any_cons, List.any_nil, Bool.or_false, beq_iff_eq] at h
      exact h.symm
    · intro m hm
      have h := (List.mem_filter.mp hm).2
      simp only [List.any_cons, List.any_nil, Bool.or_false, Bool.or_eq_true,
        beq_iff_eq] at h
      rcases h with h | h
      · exact Or.inl h.symm
      · exact Or.inr h.symm

/-- C9: `filter_machines` extends its `black_list` argument in place with the
four fixed terms, so the call is not side-effect-free on its argument; the
omitted-argument default is one shared list object, so after a first
omitted call it holds the fixed terms and a second omitted call runs with
an effective block-list containing every fixed term twice. -/
theorem C9_blacklist_default_mutation (machines1 machines2 : List AWSMachine)
    (cell l : List String) :
    ((AWSDriver.filter_machines_call cell machines1 (some l)).suppliedAfter
        = some (l ++ awsFixedBlackList))
    ∧ (l ++ awsFixedBlackList).length ≠ l.length
    ∧ (AWSDriver.filter_machines_call [] machines1 none).defaultCellAfter
        = awsFixedBlackList
    ∧ (AWSDriver.filter_machines_call
          ((AWSDriver.filter_machines_call [] machines1 none).defaultCellAfter)
          machines2 none).effectiveBlackList
        = awsFixedBlackList ++ awsFixedBlackList
    ∧ (awsFixedBlackList ++ awsFixedBlackList).count "bitnami" = 2 := by
  refine ⟨rfl, ?_, rfl, rfl, by decide⟩
  simp [awsFixedBlackList]

/-- C8: for every driver subtype, construction with a `None` Provider or
Identity raises the missing-arguments error, and a specialized construction
whose Provider or Identity is not an instance of the subtype's bound variant
raises the wrong-provider-or-identity error; in each case the result is an
error, so no partial driver object reaches the caller. -/
theorem C8_construction_errors (st : SettingsModel) :
    (∀ i, LibcloudDriver.init none i
      = .error (.missingArgs
          "LibcloudDriver is Missing Required Identity and/or Provider."))
    ∧ (∀ p, LibcloudDriver.init p none
      = .error (.missingArgs
          "LibcloudDriver is Missing Required Identity and/or Provider."))
    ∧ (∀ sub i, driverInit st sub none i
      = .error (.missingArgs
          "LibcloudDriver is Missing Required Identity and/or Provider."))
    ∧ (∀ sub p, driverInit st sub p none
      = .error (.missingArgs
          "LibcloudDriver is Missing Required Identity and/or Provider."))
    ∧ (∀ sub (p : ProviderObj) (i : IdentityObj),
        (p.variant ≠ boundProviderCls sub ∨ i.variant ≠ boundIdentityCls sub) →
        driverInit st sub (some p) (some i)
          = .error (.serviceExc "Wrong Provider or Identity")) := by
  refine ⟨?_, ?_, ?_, ?_, ?_⟩
  · intro i; cases i <;> rfl
  · intro p; cases p <;> rfl
  · intro sub i; cases sub <;> cases i <;> rfl
  · intro sub p; cases sub <;> cases p <;> rfl
  · intro sub p i h
    rcases p with ⟨pv⟩
    rcases i with ⟨iv, u⟩
    cases sub <;> cases pv <;> cases iv <;>
      first
        | rfl
        | simp [boundProviderCls, boundIdentityCls] at h

/-- Witness for C8 at a concrete input: an `AWSDriver` construction handed an
OpenStack provider object fails with the wrong-provider-or-identity error. -/
theorem C8_witness :
    driverInit st0 DriverSubtype.aws (some { variant := PVariant.os })
      (some { variant := IVariant.aws, user := UserRepr.userObject "u" })
      = .error (.serviceExc "Wrong Provider or Identity") :=
  (C8_construction_errors st0).2.2.2.2 DriverSubtype.aws
    { variant := PVariant.os }
    { variant := IVariant.aws, user := UserRepr.userObject "u" }
    (Or.inl (by decide))

/-- A keyword-argument dictionary supplying only a deployment plan. -/
def kwargsDeployOnly : Kwargs :=
  { Kwargs.empty with deploy := some (OSDriver.buildDeployPlan st0 "u" "t") }

/-- A Connection whose blocking create+deploy primitive raises
`DeploymentError("boom")` and whose other primitives succeed. -/
def connDeployBoom : ConnCall → Except Exc Unit := fun c =>
  match c with
  | .deployNode _ _ => .error (.deploymentError "boom")
  | _ => .ok ()

/-- C2: with a deployment plan supplied, OpenStack `deploy_instance` returns
the boolean `False` and logs the failure when the Connection's blocking
create+deploy primitive raises `DeploymentError`, and returns the boolean
`True` when the primitive succeeds; in neither case does it raise. -/
theorem C2_deploy_instance_error_to_false (ident : IdentityObj)
    (conn : ConnCall → Except Exc Unit) (args : List PyVal) (kwargs : Kwargs)
    (u : String) (hd : kwargs.deployTruthy = true)
    (hu : ident.user = UserRepr.userObject u) :
    (∀ v, conn (ConnCall.deployNode args (OSDriver.deploy_instance_kwargs kwargs))
        = .error (.deploymentError v) →
      OSDriver.deploy_instance ident conn args kwargs
        = { result := .ok false,
            calls := [ConnCall.deployNode args (OSDriver.deploy_instance_kwargs kwargs)],
            log := [LogEntry.error "sys.exc_info", LogEntry.error v] })
    ∧ (conn (ConnCall.deployNode args (OSDriver.deploy_instance_kwargs kwargs)) = .ok () →
      OSDriver.deploy_instance ident conn args kwargs
        = { result := .ok true,
            calls := [ConnCall.deployNode args (OSDriver.deploy_instance_kwargs kwargs)],
            log := [] }) := by
  constructor
  · intro v hconn
    simp [OSDriver.deploy_instance, hd, hu, UserRepr.usernameAttr, hconn]
  · intro hconn
    simp [OSDriver.deploy_instance, hd, hu, UserRepr.usernameAttr, hconn]

/-- Witness for C2 at concrete inputs: a failing primitive yields `False`
with the failure logged, a succeeding one yields `True`. -/
theorem C2_witness :
    OSDriver.deploy_instance identAliceObj connDeployBoom [] kwargsDeployOnly
      = { result := .ok false,
          calls := [ConnCall.deployNode [] (OSDriver.deploy_instance_kwargs kwargsDeployOnly)],
          log := [LogEntry.error "sys.exc_info", LogEntry.error "boom"] }
    ∧ OSDriver.deploy_instance identAliceObj connOk [] kwargsDeployOnly
      = { result := .ok true,
          calls := [ConnCall.deployNode [] (OSDriver.deploy_instance_kwargs kwargsDeployOnly)],
          log := [] } :=
  ⟨(C2_deploy_instance_error_to_false identAliceObj connDeployBoom [] kwargsDeployOnly
      "alice" rfl rfl).1 "boom" rfl,
   (C2_deploy_instance_error_to_false identAliceObj connOk [] kwargsDeployOnly
      "alice" rfl rfl).2 rfl⟩

/-- C5 counterexample: `deploy_instance` called with no instance argument but
with a deployment plan does not raise a missing-argument error — it returns
`True` — and it does invoke a Connection primitive, contradicting the claim
that every deploy-family call without an instance argument fails before any
Connection call. -/
theorem C5_counterexample :
    (OSDriver.deploy_instance identAliceObj connOk [] kwargsDeployOnly).result = .ok true
    ∧ (OSDriver.deploy_instance identAliceObj connOk [] kwargsDeployOnly).calls
        = [ConnCall.deployNode [] (OSDriver.deploy_instance_kwargs kwargsDeployOnly)]
    ∧ (OSDriver.deploy_instance identAliceObj connOk [] kwargsDeployOnly).calls ≠ [] := by
  refine ⟨rfl, rfl, ?_⟩
  decide

/-- C5 amended: `deploy_to` and `deploy_init_to` reject a missing instance
argument, and `deploy_to` and `deploy_instance` reject a missing deployment
plan, with a missing-argument error and no Connection primitive invoked;
`deploy_instance` performs no instance-argument check at all; and
`deploy_to` with both arguments present (given an object-form identity user
and a succeeding primitive) invokes the node-targeted deployment primitive
and returns the boolean `True`. -/
theorem C5_amended_missing_argument_errors (st : SettingsModel) (ident : IdentityObj)
    (conn : ConnCall → Except Exc Unit) (kwargs : Kwargs) :
    (OSDriver.deploy_to ident conn [] kwargs
      = { result := .error (.missingArgs "Missing instance argument."),
          calls := [], log := [] })
    ∧ (OSDriver.deploy_init_to st ident conn [] kwargs
      = { result := .error (.missingArgs "Missing instance argument."),
          calls := [], log := [] })
    ∧ (∀ a rest, kwargs.deployTruthy = false →
        OSDriver.deploy_to ident conn (a :: rest) kwargs
          = { result := .error (.missingArgs "Missing deploy argument."),
              calls := [], log := [] })
    ∧ (∀ args, kwargs.deployTruthy = false →
        OSDriver.deploy_instance ident conn args kwargs
          = { result := .error (.missingArgs "Missing deploy argument."),
              calls := [], log := [] })
    ∧ (∀ (i : OSInstance) rest (u : String), ident.user = UserRepr.userObject u →
        kwargs.deployTruthy = true → (∀ c, conn c = .ok ()) →
        OSDriver.deploy_to ident conn (PyVal.pyInstance i :: rest) kwargs
          = { result := .ok true,
              calls := [ConnCall.exDeployToNode i.node (PyVal.pyInstance i :: rest)
                          (OSDriver.deploy_to_kwargs kwargs)],
              log := [LogEntry.info "Attempting deployment to node"] }) := by
  refine ⟨rfl, rfl, ?_, ?_, ?_⟩
  · intro a rest hd
    simp [OSDriver.deploy_to, hd]
  · intro args hd
    simp [OSDriver.deploy_instance, hd]
  · intro i rest u hu hd hconn
    simp [OSDriver.deploy_to, hd, hu, UserRepr.usernameAttr, PyVal.nodeAttr, hconn]

/-- Witness for the amended C5 at concrete inputs: the missing-plan rejection
of `deploy_instance` and the successful two-argument `deploy_to` call. -/
theorem C5_witness :
    OSDriver.deploy_instance identAliceObj connOk [PyVal.pyInstance inst0] Kwargs.empty
      = { result := .error (.missingArgs "Missing deploy argument."),
          calls := [], log := [] }
    ∧ OSDriver.deploy_to identAliceObj connOk [PyVal.pyInstance inst0] kwargsDeployOnly
      = { result := .ok true,
          calls := [ConnCall.exDeployToNode inst0.node [PyVal.pyInstance inst0]
                      (OSDriver.deploy_to_kwargs kwargsDeployOnly)],
          log := [LogEntry.info "Attempting deployment to node"] } :=
  ⟨(C5_amended_missing_argument_errors st0 identAliceObj connOk Kwargs.empty).2.2.2.1
      [PyVal.pyInstance inst0] rfl,
   (C5_amended_missing_argument_errors st0 identAliceObj connOk kwargsDeployOnly).2.2.2.2
      inst0 [] "alice" rfl rfl (fun _ => rfl)⟩

/-- A caller-supplied keyword dictionary overriding both `ssh_key` and
`timeout`. -/
def kwargs999 : Kwargs :=
  { deploy := none, ssh_key := some "/home/caller/key", timeout := some 999, token := none }

/-- C6 counterexample: the caller supplies `timeout=999` and
`ssh_key="/home/caller/key"`, yet the Connection call made through
`deploy_init_to`'s delegation to `deploy_to` carries `timeout=120` and the
hard-coded default key — the caller-supplied values are not passed on
unchanged. -/
theorem C6_counterexample :
    kwargs999.timeout = some 999
    ∧ kwargs999.ssh_key = some "/home/caller/key"
    ∧ ((OSDriver.deploy_init_to st0 identAliceObj connOk [PyVal.pyInstance inst0]
          kwargs999).calls.map (fun c => c.kwargsOf.timeout)) = [some 120]
    ∧ ((OSDriver.deploy_init_to st0 identAliceObj connOk [PyVal.pyInstance inst0]
          kwargs999).calls.map (fun c => c.kwargsOf.ssh_key)) = [some defaultSshKey]
    ∧ (some "/home/caller/key" : Option String) ≠ some defaultSshKey
    ∧ (some 999 : Option Nat) ≠ some 120 := by
  refine ⟨rfl, rfl, rfl, rfl, by decide, by decide⟩

/-- C6 amended: `deploy_init_to` does not preserve caller-supplied `ssh_key`
or `timeout` keyword arguments: its three `kwargs.update` calls are
unconditional, so the keyword arguments it passes to `deploy_to` always
carry the default SSH key path, the 120-second timeout and the built plan,
whatever the caller supplied. -/
theorem C6_amended_unconditional_overwrite (st : SettingsModel) (ident : IdentityObj)
    (args1 args2 : List PyVal) (kwargs k2 : Kwargs)
    (h : OSDriver.deploy_init_prepare st ident args1 kwargs = .ok (args2, k2)) :
    k2.ssh_key = some defaultSshKey ∧ k2.timeout = some 120 ∧ k2.deploy.isSome = true := by
  rcases args1 with _ | ⟨a0, rest⟩
  · exact absurd h (by simp [OSDriver.deploy_init_prepare])
  · have hbind : OSDriver.deploy_init_prepare st ident (a0 :: rest) kwargs
        = Except.bind (OSDriver.resolveInstanceToken kwargs a0) (fun tok =>
            Except.ok (a0 :: a0 :: rest,
              { kwargs with
                deploy := some (OSDriver.buildDeployPlan st (resolveUsername ident.user) tok)
                ssh_key := some defaultSshKey
                timeout := some 120 })) := rfl
    rw [hbind] at h
    rcases htv : OSDriver.resolveInstanceToken kwargs a0 with e | tv <;> rw [htv] at h
    · simp [Except.bind] at h
    · simp only [Except.bind, Except.ok.injEq, Prod.mk.injEq] at h
      obtain ⟨h1, h2⟩ := h
      subst h2
      exact ⟨rfl, rfl, rfl⟩

/-- Witness for the amended C6 at a concrete input: with caller-supplied
`ssh_key`/`timeout`, the prepared keyword arguments still carry the
defaults. -/
theorem C6_witness :
    (OSDriver.deploy_init_kwargs st0 identAliceObj kwargs999 inst0).ssh_key
        = some defaultSshKey
    ∧ (OSDriver.deploy_init_kwargs st0 identAliceObj kwargs999 inst0).timeout = some 120
    ∧ (OSDriver.deploy_init_kwargs st0 identAliceObj kwargs999 inst0).deploy.isSome = true :=
  C6_amended_unconditional_overwrite st0 identAliceObj [PyVal.pyInstance inst0]
    [PyVal.pyInstance inst0, PyVal.pyInstance inst0] kwargs999
    (OSDriver.deploy_init_kwargs st0 identAliceObj kwargs999 inst0)
    (OSDriver.deploy_init_prepare_instance st0 identAliceObj inst0 [] kwargs999)

/-- C10: when `deploy_init_to` is called with an instance as its first
positional argument, its delegation `self.deploy_to(instance, *args,
**kwargs)` still has the instance at position 0 of `args`, so `deploy_to`
receives the instance as both its first and second positional arguments,
and `deploy_to` forwards the whole argument tuple — duplicate included — to
`ex_deploy_to_node` alongside `instance._node`. -/
theorem C10_duplicate_instance_forwarding (st : SettingsModel) (ident : IdentityObj)
    (conn : ConnCall → Except Exc Unit) (i : OSInstance) (rest : List PyVal)
    (kwargs : Kwargs) (u : String)
    (hu : ident.user = UserRepr.userObject u) (hconn : ∀ c, conn c = .ok ()) :
    OSDriver.deploy_init_prepare st ident (PyVal.pyInstance i :: rest) kwargs
      = .ok (PyVal.pyInstance i :: PyVal.pyInstance i :: rest,
             OSDriver.deploy_init_kwargs st ident kwargs i)
    ∧ (OSDriver.deploy_init_to st ident conn (PyVal.pyInstance i :: rest) kwargs).calls
      = [ConnCall.exDeployToNode i.node
           (PyVal.pyInstance i :: PyVal.pyInstance i :: rest)
           (OSDriver.deploy_init_kwargs st ident kwargs i)] := by
  have hp := OSDriver.deploy_init_prepare_instance st ident i rest kwargs
  refine ⟨hp, ?_⟩
  simp [OSDriver.deploy_init_to, hp, OSDriver.deploy_to, OSDriver.deploy_init_kwargs,
    Kwargs.deployTruthy, Kwargs.sshKeyTruthy, Kwargs.timeoutTruthy,
    OSDriver.deploy_to_kwargs, defaultSshKey, hu, UserRepr.usernameAttr,
    PyVal.nodeAttr, hconn]

/-- Witness for C10 at a concrete input: the recorded `ex_deploy_to_node`
call carries the instance twice in its positional arguments. -/
theorem C10_witness :
    OSDriver.deploy_init_prepare st0 identAliceObj [PyVal.pyInstance inst0] Kwargs.empty
      = .ok ([PyVal.pyInstance inst0, PyVal.pyInstance inst0],
             OSDriver.deploy_init_kwargs st0 identAliceObj Kwargs.empty inst0)
    ∧ (OSDriver.deploy_init_to st0 identAliceObj connOk [PyVal.pyInstance inst0]
        Kwargs.empty).calls
      = [ConnCall.exDeployToNode inst0.node
           [PyVal.pyInstance inst0, PyVal.pyInstance inst0]
           (OSDriver.deploy_init_kwargs st0 identAliceObj Kwargs.empty inst0)] :=
  C10_duplicate_instance_forwarding st0 identAliceObj connOk inst0 [] Kwargs.empty
    "alice" rfl (fun _ => rfl)

/-- C7: both user representations resolve the same username, which reaches
the agent invocation step of the built plan; the object representation
completes `deploy_init_to` end to end, but the plain-string representation
fails inside the delegation: `deploy_to` unconditionally evaluates
`self.identity.user.username` (line 397), which raises `AttributeError` for
a plain string, before any Connection primitive is invoked. -/
theorem C7_string_user_breaks_delegation :
    resolveUsername (UserRepr.plainString "alice")
        = resolveUsername (UserRepr.userObject "alice")
    ∧ OSDriver.buildDeployPlan st0 (resolveUsername (UserRepr.plainString "alice")) "inst-1"
        = OSDriver.buildDeployPlan st0 (resolveUsername (UserRepr.userObject "alice")) "inst-1"
    ∧ occursIn "--user_id=alice" (OSDriver.awesomeAtmoCall st0 "alice" "inst-1") = true
    ∧ (OSDriver.deploy_init_to st0 identAliceObj connOk [PyVal.pyInstance inst0]
        Kwargs.empty).result = .ok true
    ∧ (OSDriver.deploy_init_to st0 identAliceStr connOk [PyVal.pyInstance inst0]
        Kwargs.empty).result = .error .attributeError
    ∧ (OSDriver.deploy_init_to st0 identAliceStr connOk [PyVal.pyInstance inst0]
        Kwargs.empty).calls = [] :=
  ⟨rfl, rfl, by decide, rfl, rfl, rfl⟩
